import Mathlib

/-!
Shallow embedding of `axon/client.py`, the single source file of the
INNDiE command-line tool.  The tool is a sequence of synchronous calls
against a cloud provider; we embed it by making every provider response an
explicit input (collected in an `Env` record), making every provider
request an explicit output (a `Request` trace), and modelling a Python
exception as an `Except` error value.  Each Lean definition mirrors one
Python function of the source, keeping its name and its branch structure.
-/

set_option autoImplicit false

namespace Axon

/-- Errors raised by the client code.  Each constructor corresponds to one
raise site (or built-in Python exception) in `axon/client.py`:
`matchedMultipleSecurityGroups` is the RuntimeError of
`get_single_security_group`, `foundMultipleMatchingRoles` the one of
`ensure_role`, `failedToStartTask` and `startedMoreThanOneTask` the two of
`impl_start_task`, `ipLookupFailed` an exception escaping `ipify.get_ip`,
`indexError` a Python IndexError from indexing `[0]` into an empty list,
`stopIteration` a StopIteration from `next` on an exhausted generator, and
`keyError` a KeyError from a missing dictionary key. -/
inductive AxonError where
  | matchedMultipleSecurityGroups
  | foundMultipleMatchingRoles
  | failedToStartTask
  | startedMoreThanOneTask
  | ipLookupFailed (msg : String)
  | indexError
  | stopIteration
  | keyError
  | notFound
  deriving DecidableEq, Repr

/-- One element of an `IpRanges` list: `{"CidrIp": ...}`. -/
structure IpRange where
  CidrIp : String
  deriving DecidableEq, Repr

/-- One element of an `Ipv6Ranges` list: `{"CidrIpv6": ...}`. -/
structure Ipv6Range where
  CidrIpv6 : String
  deriving DecidableEq, Repr

/-- An EC2 IP permission dictionary.  A missing `Ipv6Ranges` key (as in the
`axon_tcp_perm` literal of the source) is modelled as the empty list. -/
structure IpPermission where
  FromPort : Int
  IpProtocol : String
  IpRanges : List IpRange
  Ipv6Ranges : List Ipv6Range
  ToPort : Int
  deriving DecidableEq, Repr

/-- `all_perm` of client.py lines 9-15: allow every protocol and port to
any IPv4 and IPv6 address. -/
def all_perm : IpPermission :=
  { FromPort := -1
    IpProtocol := "-1"
    IpRanges := [{ CidrIp := "0.0.0.0/0" }]
    Ipv6Ranges := [{ CidrIpv6 := "::/0" }]
    ToPort := -1 }

/-- `all_http_perm` of client.py lines 17-23: allow TCP port 80 from any
IPv4 and IPv6 address. -/
def all_http_perm : IpPermission :=
  { FromPort := 80
    IpProtocol := "tcp"
    IpRanges := [{ CidrIp := "0.0.0.0/0" }]
    Ipv6Ranges := [{ CidrIpv6 := "::/0" }]
    ToPort := 80 }

/-- The `axon_tcp_perm` literal built inside `ensure_ecs_gress`
(client.py lines 86-91): TCP port 8080 from the caller's IP with a /32
mask.  The source dictionary has no `Ipv6Ranges` key. -/
def axon_tcp_perm (ip : String) : IpPermission :=
  { FromPort := 8080
    IpProtocol := "tcp"
    IpRanges := [{ CidrIp := ip ++ "/32" }]
    Ipv6Ranges := []
    ToPort := 8080 }

/-- A provider request issued by the client.  Constant request fields that
no claim depends on (the container definition literal, network mode,
launch type, log configuration, assume-role policy documents) are not
recorded; the fields that vary are. -/
inductive Request where
  | createLogGroup (logGroupName : String)
  | createSecurityGroup (desc groupName : String)
  | revokeIngress (sgId : String) (perms : List IpPermission)
  | revokeEgress (sgId : String) (perms : List IpPermission)
  | authorizeIngress (sgId : String) (perms : List IpPermission)
  | authorizeEgress (sgId : String) (perms : List IpPermission)
  | createRole (roleName : String)
  | attachRolePolicy (roleName policyArn : String)
  | createCluster (clusterName : String)
  | registerTaskDefinition (family cpu memory roleArn : String)
  | runTask (cluster taskDefinition : String)
      (subnets securityGroups : List String)
  deriving DecidableEq, Repr

/-- `true` exactly on `runTask` requests. -/
def Request.isRunTask : Request → Bool
  | .runTask _ _ _ _ => true
  | _ => false

/-- `true` exactly on `authorizeIngress` and `authorizeEgress` requests. -/
def Request.isAuthorize : Request → Bool
  | .authorizeIngress _ _ => true
  | .authorizeEgress _ _ => true
  | _ => false

/-- `true` exactly on `registerTaskDefinition` requests. -/
def Request.isRegisterTaskDefinition : Request → Bool
  | .registerTaskDefinition _ _ _ _ => true
  | _ => false

/-- The ingress and egress rule lists of one security group, i.e. the
`ip_permissions` and `ip_permissions_egress` attributes of a boto3
`SecurityGroup` resource. -/
structure SecurityGroupRules where
  ip_permissions : List IpPermission
  ip_permissions_egress : List IpPermission
  deriving DecidableEq, Repr

/-- `revoke_all_perms` (client.py lines 58-68): if the ingress list is
non-empty, revoke it wholesale; if the egress list is non-empty, revoke it
wholesale.  Returns the resulting rule state and the requests issued. -/
def revoke_all_perms (sg_id : String) (sg : SecurityGroupRules) :
    SecurityGroupRules × List Request :=
  let step1 :=
    if sg.ip_permissions.length > 0 then
      ({ sg with ip_permissions := [] },
       [Request.revokeIngress sg_id sg.ip_permissions])
    else (sg, [])
  let sg1 := step1.1
  if sg1.ip_permissions_egress.length > 0 then
    ({ sg1 with ip_permissions_egress := [] },
     step1.2 ++ [Request.revokeEgress sg_id sg1.ip_permissions_egress])
  else (sg1, step1.2)

/-- The observable outcome of one gress rewrite: the provider-side rule
state when the call returns or raises, the requests issued, and the
normal-return/exception status. -/
structure GressOutcome where
  rules : SecurityGroupRules
  requests : List Request
  result : Except AxonError Unit
  deriving Repr

/-- `ensure_ecs_gress` (client.py lines 71-94).  The source first calls
`revoke_all_perms`, then performs the `ipify.get_ip()` lookup (modelled by
the `ip_lookup` argument; an exception there propagates after the revokes
already happened), then authorizes `[all_perm]` as egress and the
`axon_tcp_perm` literal as ingress.  Authorization appends to the (now
empty) rule lists. -/
def ensure_ecs_gress (sg_id : String) (ip_lookup : Except String String)
    (sg0 : SecurityGroupRules) : GressOutcome :=
  let r := revoke_all_perms sg_id sg0
  match ip_lookup with
  | .error msg =>
    { rules := r.1, requests := r.2, result := .error (.ipLookupFailed msg) }
  | .ok ip =>
    let perm := axon_tcp_perm ip
    let sg2 := { r.1 with
      ip_permissions_egress := r.1.ip_permissions_egress ++ [all_perm] }
    let sg3 := { sg2 with ip_permissions := sg2.ip_permissions ++ [perm] }
    { rules := sg3
      requests := r.2 ++ [Request.authorizeEgress sg_id [all_perm],
                          Request.authorizeIngress sg_id [perm]]
      result := .ok () }

/-- `ensure_ec2_gress` (client.py lines 97-112): revoke everything, then
authorize `[all_perm]` as egress and `[all_http_perm]` as ingress. -/
def ensure_ec2_gress (sg_id : String) (sg0 : SecurityGroupRules) :
    GressOutcome :=
  let r := revoke_all_perms sg_id sg0
  let sg2 := { r.1 with
    ip_permissions_egress := r.1.ip_permissions_egress ++ [all_perm] }
  let sg3 := { sg2 with
    ip_permissions := sg2.ip_permissions ++ [all_http_perm] }
  { rules := sg3
    requests := r.2 ++ [Request.authorizeEgress sg_id [all_perm],
                        Request.authorizeIngress sg_id [all_http_perm]]
    result := .ok () }

/-- Splits a character list at every occurrence of `c`, keeping empty
pieces, with `acc` the (reversed) piece under construction. -/
def splitCharsOn (c : Char) : List Char → List Char → List (List Char)
  | [], acc => [acc.reverse]
  | x :: xs, acc =>
    if x == c then acc.reverse :: splitCharsOn c xs []
    else splitCharsOn c xs (x :: acc)

/-- Python's `str.split(sep)` for a one-character separator: splits at
every occurrence, keeps empty pieces, and returns `[""]` on the empty
string, so the result is never empty. -/
def pySplit (s : String) (c : Char) : List String :=
  (splitCharsOn c s.data []).map (fun l => String.mk l)

/-- `b.startswith(a)` on character lists. -/
def listStartsWith : List Char → List Char → Bool
  | [], _ => true
  | _ :: _, [] => false
  | a :: as, b :: bs => a == b && listStartsWith as bs

/-- Whether `s` starts with `pre` (the log-group name-prefix filter the
provider applies to `describe_log_groups`). -/
def strStartsWith (pre s : String) : Bool :=
  listStartsWith pre.data s.data

/-- One entry of a `describe_security_groups` response: the fields the
client reads. -/
structure SecurityGroupInfo where
  groupName : String
  groupId : String
  deriving DecidableEq, Repr

/-- One entry of a `list_roles` response: the fields the client reads. -/
structure RoleInfo where
  roleName : String
  arn : String
  deriving DecidableEq, Repr

/-- The provider environment: every response the provider would give to
the client's read requests, plus the identifiers it would assign on
creation.  `securityGroups` backs `describe_security_groups` (filtered by
group name per the request's filter), `sgRules` gives the current rule
lists of a security group by id, `roles` backs `list_roles`, `clusters`
holds existing cluster names for `describe_clusters`, `taskDefinitionArns`
is the `list_task_definitions` response for the queried family, `logGroups`
backs `describe_log_groups`, `subnets` holds the subnet ids of the
filterless `describe_subnets` response in order, `publicIp` is the result
of `ipify.get_ip()`, and `runTaskTasks` holds the `taskArn` of each task
in the `run_task` response. -/
structure Env where
  securityGroups : List SecurityGroupInfo
  sgRules : String → SecurityGroupRules
  roles : List RoleInfo
  clusters : List String
  taskDefinitionArns : List String
  logGroups : List String
  subnets : List String
  publicIp : Except String String
  runTaskTasks : List String
  newSgId : String → String
  newRoleArn : String → String
  newTaskDefArn : String

/-- The outcome of one client call: the normal return value or the
exception, together with the provider requests issued before returning or
raising. -/
abbrev CallResult (α : Type) := Except AxonError α × List Request

/-- The `describe_security_groups` call of client.py lines 126-133: the
provider returns the groups whose name is in the filter's value list. -/
def describe_security_groups (env : Env) (sg_name : String) :
    List SecurityGroupInfo :=
  env.securityGroups.filter (fun it => it.groupName == sg_name)

/-- `get_single_security_group` (client.py lines 115-149): filter the
describe response by exact name; more than one match raises, exactly one
returns its `GroupId`, none issues a create and returns the new id. -/
def get_single_security_group (env : Env) (sg_name desc : String) :
    CallResult String :=
  let security_groups := describe_security_groups env sg_name
  let sgs := security_groups.filter (fun it => it.groupName == sg_name)
  match sgs with
  | [] => (.ok (env.newSgId sg_name),
           [Request.createSecurityGroup desc sg_name])
  | [sg] => (.ok sg.groupId, [])
  | _ => (.error .matchedMultipleSecurityGroups, [])

/-- `ensure_ecs_security_group` (client.py lines 152-162): resolve or
create the group named `axon-ecs-autogenerated`, then rewrite its rules
with `ensure_ecs_gress`. -/
def ensure_ecs_security_group (env : Env) : CallResult String :=
  let sg_name := "axon-ecs-autogenerated"
  let r := get_single_security_group env sg_name "Axon autogenerated for ECS."
  match r.1 with
  | .error e => (.error e, r.2)
  | .ok sg_id =>
    let g := ensure_ecs_gress sg_id env.publicIp (env.sgRules sg_id)
    match g.result with
    | .error e => (.error e, r.2 ++ g.requests)
    | .ok _ => (.ok sg_id, r.2 ++ g.requests)

/-- `ensure_ec2_security_group` (client.py lines 165-175): resolve or
create the group named `axon-ec2-autogenerated`, then rewrite its rules
with `ensure_ec2_gress`. -/
def ensure_ec2_security_group (env : Env) : CallResult String :=
  let sg_name := "axon-ec2-autogenerated"
  let r := get_single_security_group env sg_name "Axon autogenerated for EC2."
  match r.1 with
  | .error e => (.error e, r.2)
  | .ok sg_id =>
    let g := ensure_ec2_gress sg_id (env.sgRules sg_id)
    match g.result with
    | .error e => (.error e, r.2 ++ g.requests)
    | .ok _ => (.ok sg_id, r.2 ++ g.requests)

/-- `select_subnet` (client.py lines 178-185): index `[0]` into the
filterless `describe_subnets` response; an empty response raises a Python
IndexError. -/
def select_subnet (env : Env) : CallResult String :=
  match env.subnets with
  | [] => (.error .indexError, [])
  | s :: _ => (.ok s, [])

/-- `ensure_role` (client.py lines 188-204): filter `list_roles` by exact
name; exactly one match returns its ARN, more than one raises, none
returns `None`. -/
def ensure_role (roles : List RoleInfo) (role_name : String) :
    Except AxonError (Option String) :=
  let matching_roles := roles.filter (fun it => it.roleName == role_name)
  match matching_roles with
  | [] => .ok none
  | [r] => .ok (some r.arn)
  | _ => .error .foundMultipleMatchingRoles

/-- `ensure_task_role` (client.py lines 207-252): look the task role up
with `ensure_role`; when absent, create it and attach its four policies.
The assume-role policy document is a constant not recorded in the
request. -/
def ensure_task_role (env : Env) : CallResult String :=
  let role_name := "axon-ecs-autogenerated-task-role"
  match ensure_role env.roles role_name with
  | .error e => (.error e, [])
  | .ok (some arn) => (.ok arn, [])
  | .ok none =>
    (.ok (env.newRoleArn role_name),
     [Request.createRole role_name,
      Request.attachRolePolicy role_name
        "arn:aws:iam::aws:policy/service-role/AmazonECSTaskExecutionRolePolicy",
      Request.attachRolePolicy role_name
        "arn:aws:iam::aws:policy/AmazonEC2FullAccess",
      Request.attachRolePolicy role_name
        "arn:aws:iam::aws:policy/AmazonS3FullAccess",
      Request.attachRolePolicy role_name
        "arn:aws:iam::aws:policy/AmazonDynamoDBFullAccess"])

/-- `ensure_ec2_role` (client.py lines 255-282): same shape as
`ensure_task_role` for the role `axon-ec2-role-manual`, attaching one
policy on creation. -/
def ensure_ec2_role (env : Env) : CallResult String :=
  let role_name := "axon-ec2-role-manual"
  match ensure_role env.roles role_name with
  | .error e => (.error e, [])
  | .ok (some arn) => (.ok arn, [])
  | .ok none =>
    (.ok (env.newRoleArn role_name),
     [Request.createRole role_name,
      Request.attachRolePolicy role_name
        "arn:aws:iam::aws:policy/AmazonS3FullAccess"])

/-- The `describe_clusters` call of client.py line 293: the provider
returns the clusters whose name is in the request's list. -/
def describe_clusters (env : Env) (cluster_name : String) : List String :=
  env.clusters.filter (fun it => it == cluster_name)

/-- `ensure_cluster` (client.py lines 285-295): create the cluster exactly
when no entry of the describe response bears its name.  Never raises. -/
def ensure_cluster (env : Env) (cluster_name : String) : CallResult Unit :=
  let clusters := describe_clusters env cluster_name
  if (clusters.filter (fun it => it == cluster_name)).length == 0 then
    (.ok (), [Request.createCluster cluster_name])
  else
    (.ok (), [])

/-- `ensure_log_group` (client.py lines 33-55): `describe_log_groups` with
the name as prefix (the provider returns the stored groups having that
prefix), then membership of the exact name decides between doing nothing
and creating.  Never raises. -/
def ensure_log_group (env : Env) (group_name : String) : CallResult Unit :=
  let log_groups := env.logGroups.filter (fun it => strStartsWith group_name it)
  let log_group_names := log_groups
  if log_group_names.contains group_name then
    (.ok (), [])
  else
    (.ok (), [Request.createLogGroup group_name])

/-- The family extracted from a task-definition ARN in client.py line 318:
`it.split("/")[-1].split(":")[0]`.  Python's `split` never returns an
empty list, so the `[-1]` and `[0]` defaults below are never taken. -/
def taskDefFamily (arn : String) : String :=
  ((pySplit ((pySplit arn '/').getLastD "") ':').headD "")

/-- `ensure_task` (client.py lines 298-355): filter the
`list_task_definitions` response by exact family; when at least one ARN
matches, return the first without any request; otherwise ensure the log
group `/ecs/<family>` and the task role, then register a new definition
with `cpu=str(vcpu)` and `memory=str(memory)`.  The container definition,
network mode and compatibility list are constants not recorded in the
request. -/
def ensure_task (env : Env) (task_family : String) (vcpu memory : Nat) :
    CallResult String :=
  let def_arns := env.taskDefinitionArns
  let matching_arns := def_arns.filter (fun it => taskDefFamily it == task_family)
  match matching_arns with
  | arn :: _ => (.ok arn, [])
  | [] =>
    let log_group_name := "/ecs/" ++ task_family
    let r1 := ensure_log_group env log_group_name
    match r1.1 with
    | .error e => (.error e, r1.2)
    | .ok _ =>
      let r2 := ensure_task_role env
      match r2.1 with
      | .error e => (.error e, r1.2 ++ r2.2)
      | .ok role_arn =>
        (.ok env.newTaskDefArn,
         r1.2 ++ r2.2 ++
           [Request.registerTaskDefinition task_family (toString vcpu)
             (toString memory) role_arn])

/-- `impl_ensure_configuration` (client.py lines 372-386): ensure the
cluster, the task definition at 2048 cpu units (2 vCPU) and 4096 MB, the
EC2 and ECS security groups, and both roles, in source order; the first
exception aborts the sequence. -/
def impl_ensure_configuration (env : Env) (cluster_name task_family : String) :
    CallResult Unit :=
  let r1 := ensure_cluster env cluster_name
  match r1.1 with
  | .error e => (.error e, r1.2)
  | .ok _ =>
  let r2 := ensure_task env task_family 2048 4096
  match r2.1 with
  | .error e => (.error e, r1.2 ++ r2.2)
  | .ok _ =>
  let r3 := ensure_ec2_security_group env
  match r3.1 with
  | .error e => (.error e, r1.2 ++ r2.2 ++ r3.2)
  | .ok _ =>
  let r4 := ensure_ecs_security_group env
  match r4.1 with
  | .error e => (.error e, r1.2 ++ r2.2 ++ r3.2 ++ r4.2)
  | .ok _ =>
  let r5 := ensure_task_role env
  match r5.1 with
  | .error e => (.error e, r1.2 ++ r2.2 ++ r3.2 ++ r4.2 ++ r5.2)
  | .ok _ =>
  let r6 := ensure_ec2_role env
  match r6.1 with
  | .error e => (.error e, r1.2 ++ r2.2 ++ r3.2 ++ r4.2 ++ r5.2 ++ r6.2)
  | .ok _ => (.ok (), r1.2 ++ r2.2 ++ r3.2 ++ r4.2 ++ r5.2 ++ r6.2)

/-- `impl_start_task` (client.py lines 389-429): ensure the configuration,
re-ensure the ECS security group, select the first subnet, then issue one
`run_task` request; zero returned tasks raise `failedToStartTask`, more
than one raise `startedMoreThanOneTask`, exactly one returns its ARN. -/
def impl_start_task (env : Env) (cluster_name task_family : String)
    (revision : Option Nat) : CallResult String :=
  let r0 := impl_ensure_configuration env cluster_name task_family
  match r0.1 with
  | .error e => (.error e, r0.2)
  | .ok _ =>
  let r1 := ensure_ecs_security_group env
  match r1.1 with
  | .error e => (.error e, r0.2 ++ r1.2)
  | .ok sg_id =>
  let r2 := select_subnet env
  match r2.1 with
  | .error e => (.error e, r0.2 ++ r1.2 ++ r2.2)
  | .ok subnet_id =>
    let taskDefinition :=
      match revision with
      | none => task_family
      | some r => task_family ++ ":" ++ toString r
    let reqs := r0.2 ++ r1.2 ++ r2.2 ++
      [Request.runTask cluster_name taskDefinition [subnet_id] [sg_id]]
    match env.runTaskTasks with
    | [] => (.error .failedToStartTask, reqs)
    | [t] => (.ok t, reqs)
    | _ => (.error .startedMoreThanOneTask, reqs)

/-- How a boto3 client gets built: with an explicit `region_name` keyword
argument, or without one (ambient environment / credential-chain
configuration). -/
inductive Boto3Client where
  | ambient (service : String)
  | withRegion (service : String) (region : String)
  deriving DecidableEq, Repr

/-- `make_client` (client.py lines 26-30): only a `None` region builds the
client without `region_name`; any string value, empty included, is passed
through as an explicit `region_name`. -/
def make_client (name : String) (region : Option String) : Boto3Client :=
  match region with
  | none => .ambient name
  | some r => .withRegion name r

/-- `os.path.basename` for the POSIX paths this client handles: the text
after the last `/`, i.e. the last component of splitting on `/`. -/
def basename (p : String) : String :=
  (pySplit p '/').getLastD ""

/-- An S3 bucket's contents: remote key paired with stored bytes; a later
upload of the same key shadows an earlier one. -/
structure S3State where
  objects : List (String × String)
  deriving DecidableEq, Repr

/-- A boto3 `upload_file`: store the local file's bytes under the key. -/
def upload_file (s3 : S3State) (key content : String) : S3State :=
  { objects := (key, content) :: s3.objects }

/-- A boto3 `download_file`: the stored bytes under the key, or the
provider's not-found error. -/
def download_file (s3 : S3State) (key : String) : Except AxonError String :=
  match s3.objects.find? (fun kv => kv.1 == key) with
  | some kv => .ok kv.2
  | none => .error .notFound

/-- `impl_upload_model_file` (client.py lines 477-488): the remote key is
the fixed model prefix plus the base name of the local path; the bytes
uploaded are the local file's contents (`fs local_file_path`). -/
def impl_upload_model_file (fs : String → String) (s3 : S3State)
    (local_file_path : String) : S3State :=
  let remote_path := "axon-uploaded-trained-models/" ++ basename local_file_path
  upload_file s3 remote_path (fs local_file_path)

/-- `impl_download_model_file` (client.py lines 491-502): download from
the fixed model prefix plus the base name of the local path; the result is
the bytes written to the local path. -/
def impl_download_model_file (s3 : S3State) (local_file_path : String) :
    Except AxonError String :=
  let remote_path := "axon-uploaded-trained-models/" ++ basename local_file_path
  download_file s3 remote_path

/-- `impl_download_dataset` (client.py lines 519-530): download from the
fixed dataset prefix plus the base name of the local path. -/
def impl_download_dataset (s3 : S3State) (local_dataset_path : String) :
    Except AxonError String :=
  let remote_path := "axon-uploaded-datasets/" ++ basename local_dataset_path
  download_file s3 remote_path

/-- One entry of an attachment's `details` list. -/
structure AttachmentDetail where
  name : String
  value : String
  deriving DecidableEq, Repr

/-- One task attachment of a `describe_tasks` response. -/
structure Attachment where
  type : String
  details : List AttachmentDetail
  deriving DecidableEq, Repr

/-- A described task: the field the client reads. -/
structure TaskDescription where
  attachments : List Attachment
  deriving DecidableEq, Repr

/-- The `Association` dictionary of a network interface; the `PublicIp`
key may be absent. -/
structure NicAssociation where
  PublicIp : Option String
  deriving DecidableEq, Repr

/-- One entry of a `describe_network_interfaces` response; the
`Association` key may be absent. -/
structure NetworkInterface where
  Association : Option NicAssociation
  deriving DecidableEq, Repr

/-- `impl_get_task_ip` (client.py lines 445-474).  `tasks` is the
`describe_tasks` response and `describe_nics` maps a network-interface id
to the `describe_network_interfaces` response filtered on it.  Indexing
`["tasks"][0]` on an empty list raises IndexError; the two `next` calls
raise StopIteration when no attachment of type `ElasticNetworkInterface`
or no detail named `networkInterfaceId` exists; `nics[0]` on an empty
response raises IndexError; the `Association` and `PublicIp` lookups raise
KeyError when absent. -/
def impl_get_task_ip (tasks : List TaskDescription)
    (describe_nics : String → List NetworkInterface) :
    Except AxonError String :=
  match tasks with
  | [] => .error .indexError
  | task :: _ =>
    match task.attachments.find? (fun x => x.type == "ElasticNetworkInterface") with
    | none => .error .stopIteration
    | some interface_attachment =>
      match interface_attachment.details.find? (fun x => x.name == "networkInterfaceId") with
      | none => .error .stopIteration
      | some d =>
        let eni := d.value
        match describe_nics eni with
        | [] => .error .indexError
        | nic :: _ =>
          match nic.Association with
          | none => .error .keyError
          | some assoc =>
            match assoc.PublicIp with
            | none => .error .keyError
            | some ip => .ok ip

/-! Helper lemmas. -/

theorem filter_idem {α : Type} (p : α → Bool) (l : List α) :
    (l.filter p).filter p = l.filter p := by
  simp [List.filter_filter]

theorem length_le_one_cases {α : Type} (l : List α) (h : l.length ≤ 1) :
    l = [] ∨ ∃ a, l = [a] := by
  match l with
  | [] => exact Or.inl rfl
  | [a] => exact Or.inr ⟨a, rfl⟩
  | a :: b :: t => simp at h

theorem revoke_all_perms_all (sg_id : String) (sg : SecurityGroupRules)
    (p : Request → Bool)
    (hRevokeIn : ∀ i l, p (.revokeIngress i l) = true)
    (hRevokeEg : ∀ i l, p (.revokeEgress i l) = true) :
    ((revoke_all_perms sg_id sg).2.all p) = true := by
  unfold revoke_all_perms
  dsimp only
  split <;> dsimp only <;> split <;> simp_all

theorem ensure_ecs_gress_all (sg_id : String) (ip : Except String String)
    (sg : SecurityGroupRules) (p : Request → Bool)
    (hRevokeIn : ∀ i l, p (.revokeIngress i l) = true)
    (hRevokeEg : ∀ i l, p (.revokeEgress i l) = true)
    (hAuthIn : ∀ i l, p (.authorizeIngress i l) = true)
    (hAuthEg : ∀ i l, p (.authorizeEgress i l) = true) :
    ((ensure_ecs_gress sg_id ip sg).requests.all p) = true := by
  have hrev := revoke_all_perms_all sg_id sg p hRevokeIn hRevokeEg
  unfold ensure_ecs_gress
  dsimp only
  match ip with
  | .error msg => simpa using hrev
  | .ok v => simp_all

theorem ensure_ec2_gress_all (sg_id : String) (sg : SecurityGroupRules)
    (p : Request → Bool)
    (hRevokeIn : ∀ i l, p (.revokeIngress i l) = true)
    (hRevokeEg : ∀ i l, p (.revokeEgress i l) = true)
    (hAuthIn : ∀ i l, p (.authorizeIngress i l) = true)
    (hAuthEg : ∀ i l, p (.authorizeEgress i l) = true) :
    ((ensure_ec2_gress sg_id sg).requests.all p) = true := by
  have hrev := revoke_all_perms_all sg_id sg p hRevokeIn hRevokeEg
  unfold ensure_ec2_gress
  dsimp only
  simp_all

theorem get_single_security_group_all (env : Env) (n d : String)
    (p : Request → Bool)
    (hCreateSG : ∀ a b, p (.createSecurityGroup a b) = true) :
    ((get_single_security_group env n d).2.all p) = true := by
  unfold get_single_security_group
  dsimp only
  split <;> simp_all

theorem ensure_ecs_security_group_all (env : Env) (p : Request → Bool)
    (hRevokeIn : ∀ i l, p (.revokeIngress i l) = true)
    (hRevokeEg : ∀ i l, p (.revokeEgress i l) = true)
    (hAuthIn : ∀ i l, p (.authorizeIngress i l) = true)
    (hAuthEg : ∀ i l, p (.authorizeEgress i l) = true)
    (hCreateSG : ∀ a b, p (.createSecurityGroup a b) = true) :
    ((ensure_ecs_security_group env).2.all p) = true := by
  have h1 := get_single_security_group_all env "axon-ecs-autogenerated"
    "Axon autogenerated for ECS." p hCreateSG
  unfold ensure_ecs_security_group
  dsimp only
  split
  · simpa using h1
  · rename_i sg_id heq
    have h2 := ensure_ecs_gress_all sg_id env.publicIp (env.sgRules sg_id) p
      hRevokeIn hRevokeEg hAuthIn hAuthEg
    split <;> simp_all

theorem ensure_ec2_security_group_all (env : Env) (p : Request → Bool)
    (hRevokeIn : ∀ i l, p (.revokeIngress i l) = true)
    (hRevokeEg : ∀ i l, p (.revokeEgress i l) = true)
    (hAuthIn : ∀ i l, p (.authorizeIngress i l) = true)
    (hAuthEg : ∀ i l, p (.authorizeEgress i l) = true)
    (hCreateSG : ∀ a b, p (.createSecurityGroup a b) = true) :
    ((ensure_ec2_security_group env).2.all p) = true := by
  have h1 := get_single_security_group_all env "axon-ec2-autogenerated"
    "Axon autogenerated for EC2." p hCreateSG
  unfold ensure_ec2_security_group
  dsimp only
  split
  · simpa using h1
  · rename_i sg_id heq
    have h2 := ensure_ec2_gress_all sg_id (env.sgRules sg_id) p
      hRevokeIn hRevokeEg hAuthIn hAuthEg
    split <;> simp_all

theorem ensure_task_role_all (env : Env) (p : Request → Bool)
    (hCreateRole : ∀ n, p (.createRole n) = true)
    (hAttach : ∀ n a, p (.attachRolePolicy n a) = true) :
    ((ensure_task_role env).2.all p) = true := by
  unfold ensure_task_role
  dsimp only
  split <;> simp_all

theorem ensure_ec2_role_all (env : Env) (p : Request → Bool)
    (hCreateRole : ∀ n, p (.createRole n) = true)
    (hAttach : ∀ n a, p (.attachRolePolicy n a) = true) :
    ((ensure_ec2_role env).2.all p) = true := by
  unfold ensure_ec2_role
  dsimp only
  split <;> simp_all

theorem ensure_cluster_all (env : Env) (c : String) (p : Request → Bool)
    (hCreateCluster : ∀ n, p (.createCluster n) = true) :
    ((ensure_cluster env c).2.all p) = true := by
  unfold ensure_cluster
  dsimp only
  split <;> simp_all

theorem ensure_log_group_all (env : Env) (g : String) (p : Request → Bool)
    (hCreateLog : ∀ n, p (.createLogGroup n) = true) :
    ((ensure_log_group env g).2.all p) = true := by
  unfold ensure_log_group
  dsimp only
  split <;> simp_all

theorem ensure_task_all (env : Env) (f : String) (vcpu memory : Nat)
    (p : Request → Bool)
    (hCreateLog : ∀ n, p (.createLogGroup n) = true)
    (hCreateRole : ∀ n, p (.createRole n) = true)
    (hAttach : ∀ n a, p (.attachRolePolicy n a) = true)
    (hRegister : ∀ fam ra,
      p (.registerTaskDefinition fam (toString vcpu) (toString memory) ra) = true) :
    ((ensure_task env f vcpu memory).2.all p) = true := by
  have hlog := ensure_log_group_all env ("/ecs/" ++ f) p hCreateLog
  have hrole := ensure_task_role_all env p hCreateRole hAttach
  unfold ensure_task
  dsimp only
  split
  · simp
  · split
    · simp_all
    · split <;> simp_all

theorem impl_ensure_configuration_all (env : Env) (c f : String)
    (p : Request → Bool)
    (hCreateLog : ∀ n, p (.createLogGroup n) = true)
    (hCreateSG : ∀ a b, p (.createSecurityGroup a b) = true)
    (hRevokeIn : ∀ i l, p (.revokeIngress i l) = true)
    (hRevokeEg : ∀ i l, p (.revokeEgress i l) = true)
    (hAuthIn : ∀ i l, p (.authorizeIngress i l) = true)
    (hAuthEg : ∀ i l, p (.authorizeEgress i l) = true)
    (hCreateRole : ∀ n, p (.createRole n) = true)
    (hAttach : ∀ n a, p (.attachRolePolicy n a) = true)
    (hCreateCluster : ∀ n, p (.createCluster n) = true)
    (hRegister : ∀ fam ra,
      p (.registerTaskDefinition fam "2048" "4096" ra) = true) :
    ((impl_ensure_configuration env c f).2.all p) = true := by
  have h1 := ensure_cluster_all env c p hCreateCluster
  have h2 := ensure_task_all env f 2048 4096 p hCreateLog hCreateRole hAttach
    (by simpa using hRegister)
  have h3 := ensure_ec2_security_group_all env p hRevokeIn hRevokeEg hAuthIn
    hAuthEg hCreateSG
  have h4 := ensure_ecs_security_group_all env p hRevokeIn hRevokeEg hAuthIn
    hAuthEg hCreateSG
  have h5 := ensure_task_role_all env p hCreateRole hAttach
  have h6 := ensure_ec2_role_all env p hCreateRole hAttach
  unfold impl_ensure_configuration
  dsimp only
  split
  · simp_all
  · split
    · simp_all
    · split
      · simp_all
      · split
        · simp_all
        · split
          · simp_all
          · split <;> simp_all

theorem ensure_cluster_ok (env : Env) (c : String) :
    (ensure_cluster env c).1 = .ok () := by
  unfold ensure_cluster
  dsimp only
  split <;> rfl

theorem ensure_log_group_ok (env : Env) (g : String) :
    (ensure_log_group env g).1 = .ok () := by
  unfold ensure_log_group
  dsimp only
  split <;> rfl

theorem get_single_security_group_ok (env : Env) (n d : String)
    (h : ((env.securityGroups.filter (fun it => it.groupName == n)).length ≤ 1)) :
    ∃ i, (get_single_security_group env n d).1 = .ok i := by
  unfold get_single_security_group describe_security_groups
  dsimp only
  rw [filter_idem]
  rcases length_le_one_cases _ h with h0 | ⟨a, h1⟩
  · rw [h0]
    exact ⟨env.newSgId n, rfl⟩
  · rw [h1]
    exact ⟨a.groupId, rfl⟩

theorem ensure_role_ok (roles : List RoleInfo) (n : String)
    (h : ((roles.filter (fun it => it.roleName == n)).length ≤ 1)) :
    ∃ o, ensure_role roles n = .ok o := by
  unfold ensure_role
  dsimp only
  rcases length_le_one_cases _ h with h0 | ⟨a, h1⟩
  · rw [h0]
    exact ⟨none, rfl⟩
  · rw [h1]
    exact ⟨some a.arn, rfl⟩

theorem ensure_task_role_ok (env : Env)
    (h : ((env.roles.filter
      (fun it => it.roleName == "axon-ecs-autogenerated-task-role")).length ≤ 1)) :
    ∃ a, (ensure_task_role env).1 = .ok a := by
  obtain ⟨o, ho⟩ := ensure_role_ok env.roles "axon-ecs-autogenerated-task-role" h
  unfold ensure_task_role
  dsimp only
  rw [ho]
  match o with
  | none => exact ⟨_, rfl⟩
  | some arn => exact ⟨arn, rfl⟩

theorem ensure_ec2_role_ok (env : Env)
    (h : ((env.roles.filter
      (fun it => it.roleName == "axon-ec2-role-manual")).length ≤ 1)) :
    ∃ a, (ensure_ec2_role env).1 = .ok a := by
  obtain ⟨o, ho⟩ := ensure_role_ok env.roles "axon-ec2-role-manual" h
  unfold ensure_ec2_role
  dsimp only
  rw [ho]
  match o with
  | none => exact ⟨_, rfl⟩
  | some arn => exact ⟨arn, rfl⟩

theorem ensure_task_ok (env : Env) (f : String) (vcpu memory : Nat)
    (h : ((env.roles.filter
      (fun it => it.roleName == "axon-ecs-autogenerated-task-role")).length ≤ 1)) :
    ∃ a, (ensure_task env f vcpu memory).1 = .ok a := by
  obtain ⟨a0, ha0⟩ := ensure_task_role_ok env h
  have hl := ensure_log_group_ok env ("/ecs/" ++ f)
  unfold ensure_task
  dsimp only
  split
  · exact ⟨_, rfl⟩
  · simp only [hl, ha0]
    exact ⟨_, rfl⟩

theorem ensure_ecs_security_group_ok (env : Env) (ip : String)
    (hip : env.publicIp = .ok ip)
    (h : ((env.securityGroups.filter
      (fun it => it.groupName == "axon-ecs-autogenerated")).length ≤ 1)) :
    ∃ i, (ensure_ecs_security_group env).1 = .ok i := by
  obtain ⟨i, hi⟩ := get_single_security_group_ok env "axon-ecs-autogenerated"
    "Axon autogenerated for ECS." h
  unfold ensure_ecs_security_group
  dsimp only
  simp only [hi]
  have : (ensure_ecs_gress i env.publicIp (env.sgRules i)).result = .ok () := by
    rw [hip]
    unfold ensure_ecs_gress
    rfl
  simp only [this]
  exact ⟨i, rfl⟩

theorem ensure_ec2_security_group_ok (env : Env)
    (h : ((env.securityGroups.filter
      (fun it => it.groupName == "axon-ec2-autogenerated")).length ≤ 1)) :
    ∃ i, (ensure_ec2_security_group env).1 = .ok i := by
  obtain ⟨i, hi⟩ := get_single_security_group_ok env "axon-ec2-autogenerated"
    "Axon autogenerated for EC2." h
  unfold ensure_ec2_security_group
  dsimp only
  simp only [hi]
  have : (ensure_ec2_gress i (env.sgRules i)).result = .ok () := by
    unfold ensure_ec2_gress
    rfl
  simp only [this]
  exact ⟨i, rfl⟩

theorem impl_ensure_configuration_ok (env : Env) (c f ip : String)
    (hip : env.publicIp = .ok ip)
    (hsgEcs : ((env.securityGroups.filter
      (fun it => it.groupName == "axon-ecs-autogenerated")).length ≤ 1))
    (hsgEc2 : ((env.securityGroups.filter
      (fun it => it.groupName == "axon-ec2-autogenerated")).length ≤ 1))
    (hroleTask : ((env.roles.filter
      (fun it => it.roleName == "axon-ecs-autogenerated-task-role")).length ≤ 1))
    (hroleEc2 : ((env.roles.filter
      (fun it => it.roleName == "axon-ec2-role-manual")).length ≤ 1)) :
    (impl_ensure_configuration env c f).1 = .ok () := by
  have h1 := ensure_cluster_ok env c
  obtain ⟨a2, h2⟩ := ensure_task_ok env f 2048 4096 hroleTask
  obtain ⟨a3, h3⟩ := ensure_ec2_security_group_ok env hsgEc2
  obtain ⟨a4, h4⟩ := ensure_ecs_security_group_ok env ip hip hsgEcs
  obtain ⟨a5, h5⟩ := ensure_task_role_ok env hroleTask
  obtain ⟨a6, h6⟩ := ensure_ec2_role_ok env hroleEc2
  unfold impl_ensure_configuration
  dsimp only
  simp only [h1, h2, h3, h4, h5, h6]

theorem revoke_all_perms_rules (sg_id : String) (sg : SecurityGroupRules) :
    (revoke_all_perms sg_id sg).1 = ⟨[], []⟩ := by
  obtain ⟨i, e⟩ := sg
  cases i <;> cases e <;> simp [revoke_all_perms]

/-! Claim theorems. -/

/-- C2: security-group reconfiguration is idempotent in rule content.
For every starting rule state, one application of `ensure_ecs_gress` (with
a successful IP lookup) leaves exactly the fixed ingress rule (TCP 8080
from the caller's IP /32) and allow-all egress, a second application
leaves the same rule set, and likewise `ensure_ec2_gress` leaves exactly
TCP 80 from anywhere as ingress and allow-all egress; all prior rules are
revoked in both variants. -/
theorem gress_rewrite_idempotent (sg_id ip : String)
    (sg0 : SecurityGroupRules) :
    (ensure_ecs_gress sg_id (.ok ip) sg0).rules
        = ⟨[axon_tcp_perm ip], [all_perm]⟩
    ∧ (ensure_ecs_gress sg_id (.ok ip)
        ((ensure_ecs_gress sg_id (.ok ip) sg0).rules)).rules
        = (ensure_ecs_gress sg_id (.ok ip) sg0).rules
    ∧ (ensure_ecs_gress sg_id (.ok ip) sg0).result = .ok ()
    ∧ (ensure_ec2_gress sg_id sg0).rules = ⟨[all_http_perm], [all_perm]⟩
    ∧ (ensure_ec2_gress sg_id ((ensure_ec2_gress sg_id sg0).rules)).rules
        = (ensure_ec2_gress sg_id sg0).rules := by
  have hecs : ∀ s : SecurityGroupRules,
      (ensure_ecs_gress sg_id (.ok ip) s).rules
        = ⟨[axon_tcp_perm ip], [all_perm]⟩ := by
    intro s
    unfold ensure_ecs_gress
    dsimp only
    rw [revoke_all_perms_rules]
    rfl
  have hec2 : ∀ s : SecurityGroupRules,
      (ensure_ec2_gress sg_id s).rules = ⟨[all_http_perm], [all_perm]⟩ := by
    intro s
    unfold ensure_ec2_gress
    dsimp only
    rw [revoke_all_perms_rules]
    rfl
  refine ⟨hecs sg0, ?_, ?_, hec2 sg0, ?_⟩
  · rw [hecs, hecs]
  · unfold ensure_ecs_gress
    rfl
  · rw [hec2, hec2]

/-- C3, counterexample: the claim says a failed public-IP lookup aborts
`ensure_ecs_gress` with the rule set unchanged (no rules revoked).  On a
group that starts with one ingress and one egress rule, the call with a
failing lookup raises, yet its rule set is no longer the starting one:
the source revokes all rules before it performs the lookup. -/
theorem ecs_gress_ip_failure_cex :
    (ensure_ecs_gress "sg-1" (.error "ipify unreachable")
        ⟨[all_http_perm], [all_perm]⟩).result
      = .error (.ipLookupFailed "ipify unreachable")
    ∧ (ensure_ecs_gress "sg-1" (.error "ipify unreachable")
        ⟨[all_http_perm], [all_perm]⟩).rules
      ≠ ⟨[all_http_perm], [all_perm]⟩
    ∧ (ensure_ecs_gress "sg-1" (.error "ipify unreachable")
        ⟨[all_http_perm], [all_perm]⟩).requests
      = [Request.revokeIngress "sg-1" [all_http_perm],
         Request.revokeEgress "sg-1" [all_perm]] := by
  refine ⟨rfl, ?_, rfl⟩
  intro h
  have := congrArg SecurityGroupRules.ip_permissions h
  simp [ensure_ecs_gress, revoke_all_perms, all_http_perm, all_perm] at this

/-- C3, amended: if the public-IP lookup fails, `ensure_ecs_gress` aborts
with the lookup's exception, no authorize request has been issued, but the
group's prior rules have all been revoked already: the group is left with
empty ingress and egress rule sets, not with its pre-call rule set. -/
theorem ecs_gress_ip_failure_amended (sg_id msg : String)
    (sg0 : SecurityGroupRules) :
    (ensure_ecs_gress sg_id (.error msg) sg0).result
        = .error (.ipLookupFailed msg)
    ∧ (ensure_ecs_gress sg_id (.error msg) sg0).rules = ⟨[], []⟩
    ∧ ((ensure_ecs_gress sg_id (.error msg) sg0).requests.all
        (fun r => ! r.isAuthorize)) = true := by
  refine ⟨rfl, ?_, ?_⟩
  · unfold ensure_ecs_gress
    dsimp only
    rw [revoke_all_perms_rules]
  · unfold ensure_ecs_gress
    dsimp only
    exact revoke_all_perms_all sg_id sg0 _ (fun i l => rfl) (fun i l => rfl)

/-- C9, counterexample: the claim says a null or empty region value causes
the client to be built without an explicit region.  With the empty string,
`make_client` takes the non-`None` branch and passes `region_name=""`
explicitly, so the client is not built in the ambient-fallback mode. -/
theorem make_client_empty_region_cex :
    make_client "ec2" (some "") = .withRegion "ec2" ""
    ∧ make_client "ec2" (some "") ≠ .ambient "ec2" := by
  exact ⟨rfl, by simp [make_client]⟩

/-- C9, amended: an explicitly supplied region value — any string,
including the empty string — is passed to the provider client as an
explicit region; only a null (`None`) region builds the client without an
explicit region, falling back to ambient configuration. -/
theorem make_client_region_amended (name : String) :
    make_client name none = .ambient name
    ∧ ∀ r : String, make_client name (some r) = .withRegion name r := by
  exact ⟨rfl, fun r => rfl⟩

/-- A provider environment with no pre-existing resources, one subnet, a
successful IP lookup, and one task in the run-task response. -/
def freshEnv : Env :=
  { securityGroups := []
    sgRules := fun _ => ⟨[], []⟩
    roles := []
    clusters := []
    taskDefinitionArns := []
    logGroups := []
    subnets := ["subnet-0a"]
    publicIp := .ok "203.0.113.7"
    runTaskTasks := ["arn:aws:ecs:us-east-1:1:task/one"]
    newSgId := fun n => "sg-new-" ++ n
    newRoleArn := fun n => "arn:aws:iam::1:role/" ++ n
    newTaskDefArn := "arn:aws:ecs:us-east-1:1:task-definition/new:1" }

/-- An environment whose task-definition listing holds two revisions of
the family `fam` (the normal situation after any re-registration). -/
def twoDefsEnv : Env :=
  { freshEnv with taskDefinitionArns :=
      ["arn:aws:ecs:us-east-1:1:task-definition/fam:2",
       "arn:aws:ecs:us-east-1:1:task-definition/fam:1"] }

/-- An environment with exactly one of each resource. -/
def oneEnv : Env :=
  { freshEnv with
      securityGroups := [{ groupName := "sg-one", groupId := "sg-0123" }]
      roles := [{ roleName := "role-one", arn := "arn:aws:iam::1:role/one" }]
      clusters := ["clu"]
      taskDefinitionArns := ["arn:aws:ecs:us-east-1:1:task-definition/fam:3"]
      logGroups := ["/ecs/g"] }

/-- An environment with duplicated resources under each queried name. -/
def dupEnv : Env :=
  { freshEnv with
      securityGroups :=
        [{ groupName := "sg-one", groupId := "sg-1" },
         { groupName := "sg-one", groupId := "sg-2" }]
      roles :=
        [{ roleName := "role-one", arn := "arn:aws:iam::1:role/one" },
         { roleName := "role-one", arn := "arn:aws:iam::1:role/two" }]
      clusters := ["clu", "clu"]
      taskDefinitionArns :=
        ["arn:aws:ecs:us-east-1:1:task-definition/fam:3",
         "arn:aws:ecs:us-east-1:1:task-definition/fam:2"] }

/-- C1, counterexample: the claim says every resource kind fails with an
AmbiguousResource error when two or more resources match.  With two task
definitions matching the family `fam`, `ensure_task` does not fail: it
returns the first matching ARN and issues no request. -/
theorem reconcile_multiple_match_cex :
    ((twoDefsEnv.taskDefinitionArns.filter
        (fun it => taskDefFamily it == "fam")).length = 2)
    ∧ ensure_task twoDefsEnv "fam" 2048 4096
        = (.ok "arn:aws:ecs:us-east-1:1:task-definition/fam:2", []) := by
  constructor
  · decide
  · rfl

/-- C1, amended: security groups and IAM roles follow the claimed
pattern — zero matches issue exactly one create, one match returns the
existing identifier with no create, two or more matches fail with the
multiple-match RuntimeError.  Clusters, task definitions and log groups
create only when zero resources match; with one or more matches they
proceed without error and without creating (the task definition returning
the first matching ARN), never raising an ambiguity error. -/
theorem reconcile_resource_pattern_amended (env : Env)
    (sg_name d role_name c g f : String) (v m : Nat) :
    (env.securityGroups.filter (fun it => it.groupName == sg_name) = [] →
      get_single_security_group env sg_name d
        = (.ok (env.newSgId sg_name), [Request.createSecurityGroup d sg_name]))
    ∧ (∀ a, env.securityGroups.filter (fun it => it.groupName == sg_name) = [a] →
      get_single_security_group env sg_name d = (.ok a.groupId, []))
    ∧ (∀ a b l,
        env.securityGroups.filter (fun it => it.groupName == sg_name) = a :: b :: l →
      get_single_security_group env sg_name d
        = (.error .matchedMultipleSecurityGroups, []))
    ∧ (env.roles.filter (fun it => it.roleName == role_name) = [] →
      ensure_role env.roles role_name = .ok none)
    ∧ (∀ a, env.roles.filter (fun it => it.roleName == role_name) = [a] →
      ensure_role env.roles role_name = .ok (some a.arn))
    ∧ (∀ a b l, env.roles.filter (fun it => it.roleName == role_name) = a :: b :: l →
      ensure_role env.roles role_name = .error .foundMultipleMatchingRoles)
    ∧ (env.roles.filter
        (fun it => it.roleName == "axon-ecs-autogenerated-task-role") = [] →
      (ensure_task_role env).1
          = .ok (env.newRoleArn "axon-ecs-autogenerated-task-role")
      ∧ ((ensure_task_role env).2.countP
          (fun r => match r with | .createRole _ => true | _ => false)) = 1)
    ∧ (env.clusters.filter (fun it => it == c) = [] →
      ensure_cluster env c = (.ok (), [Request.createCluster c]))
    ∧ (∀ a l, env.clusters.filter (fun it => it == c) = a :: l →
      ensure_cluster env c = (.ok (), []))
    ∧ (∀ a l, env.taskDefinitionArns.filter (fun it => taskDefFamily it == f) = a :: l →
      ensure_task env f v m = (.ok a, []))
    ∧ ((env.logGroups.filter (fun it => strStartsWith g it)).contains g = true →
      ensure_log_group env g = (.ok (), []))
    ∧ ((env.logGroups.filter (fun it => strStartsWith g it)).contains g = false →
      ensure_log_group env g = (.ok (), [Request.createLogGroup g])) := by
  refine ⟨?_, ?_, ?_, ?_, ?_, ?_, ?_, ?_, ?_, ?_, ?_, ?_⟩
  · intro h
    unfold get_single_security_group describe_security_groups
    dsimp only
    rw [filter_idem, h]
  · intro a h
    unfold get_single_security_group describe_security_groups
    dsimp only
    rw [filter_idem, h]
  · intro a b l h
    unfold get_single_security_group describe_security_groups
    dsimp only
    rw [filter_idem, h]
  · intro h
    unfold ensure_role
    dsimp only
    rw [h]
  · intro a h
    unfold ensure_role
    dsimp only
    rw [h]
  · intro a b l h
    unfold ensure_role
    dsimp only
    rw [h]
  · intro h
    have hr : ensure_role env.roles "axon-ecs-autogenerated-task-role" = .ok none := by
      unfold ensure_role
      dsimp only
      rw [h]
    unfold ensure_task_role
    dsimp only
    rw [hr]
    exact ⟨rfl, rfl⟩
  · intro h
    unfold ensure_cluster describe_clusters
    dsimp only
    rw [filter_idem, h]
    rfl
  · intro a l h
    unfold ensure_cluster describe_clusters
    dsimp only
    rw [filter_idem, h]
    rfl
  · intro a l h
    unfold ensure_task
    dsimp only
    rw [h]
  · intro h
    unfold ensure_log_group
    dsimp only
    rw [h]
    rfl
  · intro h
    unfold ensure_log_group
    dsimp only
    rw [h]
    rfl

/-- C1 amended, witness: the twelve cases instantiated on concrete
environments with zero, one and two matching resources. -/
theorem reconcile_resource_pattern_amended_witness :
    (get_single_security_group freshEnv "sg-one" "d"
        = (.ok (freshEnv.newSgId "sg-one"),
           [Request.createSecurityGroup "d" "sg-one"]))
    ∧ (get_single_security_group oneEnv "sg-one" "d" = (.ok "sg-0123", []))
    ∧ (get_single_security_group dupEnv "sg-one" "d"
        = (.error .matchedMultipleSecurityGroups, []))
    ∧ (ensure_role freshEnv.roles "role-one" = .ok none)
    ∧ (ensure_role oneEnv.roles "role-one" = .ok (some "arn:aws:iam::1:role/one"))
    ∧ (ensure_role dupEnv.roles "role-one" = .error .foundMultipleMatchingRoles)
    ∧ ((ensure_task_role freshEnv).1
        = .ok (freshEnv.newRoleArn "axon-ecs-autogenerated-task-role")
      ∧ ((ensure_task_role freshEnv).2.countP
          (fun r => match r with | .createRole _ => true | _ => false)) = 1)
    ∧ (ensure_cluster freshEnv "clu" = (.ok (), [Request.createCluster "clu"]))
    ∧ (ensure_cluster dupEnv "clu" = (.ok (), []))
    ∧ (ensure_task dupEnv "fam" 2048 4096
        = (.ok "arn:aws:ecs:us-east-1:1:task-definition/fam:3", []))
    ∧ (ensure_log_group oneEnv "/ecs/g" = (.ok (), []))
    ∧ (ensure_log_group freshEnv "/ecs/g"
        = (.ok (), [Request.createLogGroup "/ecs/g"])) := by
  have Hf := reconcile_resource_pattern_amended freshEnv "sg-one" "d" "role-one"
    "clu" "/ecs/g" "fam" 2048 4096
  have Ho := reconcile_resource_pattern_amended oneEnv "sg-one" "d" "role-one"
    "clu" "/ecs/g" "fam" 2048 4096
  have Hd := reconcile_resource_pattern_amended dupEnv "sg-one" "d" "role-one"
    "clu" "/ecs/g" "fam" 2048 4096
  refine ⟨Hf.1 (by decide),
    Ho.2.1 { groupName := "sg-one", groupId := "sg-0123" } (by decide),
    Hd.2.2.1 { groupName := "sg-one", groupId := "sg-1" }
      { groupName := "sg-one", groupId := "sg-2" } [] (by decide),
    Hf.2.2.2.1 (by decide),
    Ho.2.2.2.2.1 { roleName := "role-one", arn := "arn:aws:iam::1:role/one" }
      (by decide),
    Hd.2.2.2.2.2.1 { roleName := "role-one", arn := "arn:aws:iam::1:role/one" }
      { roleName := "role-one", arn := "arn:aws:iam::1:role/two" } [] (by decide),
    Hf.2.2.2.2.2.2.1 (by decide),
    Hf.2.2.2.2.2.2.2.1 (by decide),
    Hd.2.2.2.2.2.2.2.2.1 "clu" ["clu"] (by decide),
    Hd.2.2.2.2.2.2.2.2.2.1 "arn:aws:ecs:us-east-1:1:task-definition/fam:3"
      ["arn:aws:ecs:us-east-1:1:task-definition/fam:2"] (by decide),
    Ho.2.2.2.2.2.2.2.2.2.2.1 (by decide),
    Hf.2.2.2.2.2.2.2.2.2.2.2 (by decide)⟩

theorem countP_eq_zero_of_all_not {α : Type} (l : List α) (p : α → Bool)
    (h : l.all (fun a => ! p a) = true) : l.countP p = 0 := by
  rw [List.countP_eq_zero]
  rw [List.all_eq_true] at h
  intro a ha
  simpa using h a ha

/-- C5: task-definition reconciliation registers a new revision only when
no definition exists for the family.  Whenever at least one ARN matches
the family, `ensure_task` issues no request at all and returns the first
matching ARN as-is, for every requested vcpu and memory value; when none
matches (and the role lookup is unambiguous), it issues exactly one
register request, which carries the requested vcpu and memory as strings,
and returns the newly registered ARN. -/
theorem ensure_task_trusts_existing (env : Env) (f : String) (v m : Nat) :
    (∀ a l, env.taskDefinitionArns.filter (fun it => taskDefFamily it == f) = a :: l →
      ensure_task env f v m = (.ok a, []))
    ∧ (env.taskDefinitionArns.filter (fun it => taskDefFamily it == f) = [] →
       (env.roles.filter
         (fun it => it.roleName == "axon-ecs-autogenerated-task-role")).length ≤ 1 →
      (ensure_task env f v m).1 = .ok env.newTaskDefArn
      ∧ ((ensure_task env f v m).2.countP
          (fun r => r.isRegisterTaskDefinition)) = 1
      ∧ ((ensure_task env f v m).2.all
          (fun r => match r with
            | .registerTaskDefinition fam cpu mem _ =>
                fam == f && cpu == toString v && mem == toString m
            | _ => true)) = true) := by
  constructor
  · intro a l h
    unfold ensure_task
    dsimp only
    rw [h]
  · intro hmatch hrole
    obtain ⟨a0, ha0⟩ := ensure_task_role_ok env hrole
    have hl := ensure_log_group_ok env ("/ecs/" ++ f)
    have hq1 := ensure_log_group_all env ("/ecs/" ++ f)
      (fun r => ! r.isRegisterTaskDefinition) (fun n => rfl)
    have hq2 := ensure_task_role_all env
      (fun r => ! r.isRegisterTaskDefinition) (fun n => rfl) (fun n a => rfl)
    have hq1b := ensure_log_group_all env ("/ecs/" ++ f)
      (fun r => match r with
        | .registerTaskDefinition fam cpu mem _ =>
            fam == f && cpu == toString v && mem == toString m
        | _ => true) (fun n => rfl)
    have hq2b := ensure_task_role_all env
      (fun r => match r with
        | .registerTaskDefinition fam cpu mem _ =>
            fam == f && cpu == toString v && mem == toString m
        | _ => true) (fun n => rfl) (fun n a => rfl)
    unfold ensure_task
    dsimp only
    rw [hmatch]
    simp only [hl, ha0]
    refine ⟨trivial, ?_, ?_⟩
    · rw [List.countP_append, List.countP_append]
      rw [countP_eq_zero_of_all_not _ _ hq1, countP_eq_zero_of_all_not _ _ hq2]
      rfl
    · rw [List.all_append, List.all_append]
      rw [hq1b, hq2b]
      simp

/-- C5, witness: at an environment with two matching definitions the
first ARN comes back untouched, and at the fresh environment exactly one
register request carrying the requested size is issued. -/
theorem ensure_task_trusts_existing_witness :
    (ensure_task twoDefsEnv "fam" 1024 2048
      = (.ok "arn:aws:ecs:us-east-1:1:task-definition/fam:2", []))
    ∧ ((ensure_task freshEnv "fam" 1024 2048).1 = .ok freshEnv.newTaskDefArn
      ∧ ((ensure_task freshEnv "fam" 1024 2048).2.countP
          (fun r => r.isRegisterTaskDefinition)) = 1
      ∧ ((ensure_task freshEnv "fam" 1024 2048).2.all
          (fun r => match r with
            | .registerTaskDefinition fam cpu mem _ =>
                fam == "fam" && cpu == toString 1024 && mem == toString 2048
            | _ => true)) = true) := by
  exact ⟨(ensure_task_trusts_existing twoDefsEnv "fam" 1024 2048).1
      "arn:aws:ecs:us-east-1:1:task-definition/fam:2"
      ["arn:aws:ecs:us-east-1:1:task-definition/fam:1"] (by decide),
    (ensure_task_trusts_existing freshEnv "fam" 1024 2048).2 (by decide) (by decide)⟩

/-- C8: `impl_ensure_configuration` issues no task-run request for any
environment; every register request it can issue carries exactly
`cpu="2048"` (2048 cpu units, i.e. 2 vCPU) and `memory="4096"` (MB); and
on a fresh environment it reconciles both security groups (creating
`axon-ecs-autogenerated` and `axon-ec2-autogenerated`) and both IAM roles
(creating `axon-ecs-autogenerated-task-role` and `axon-ec2-role-manual`),
registering the task definition at the fixed size. -/
theorem ensure_configuration_fixed_size_no_run :
    (∀ (env : Env) (c f : String),
      ((impl_ensure_configuration env c f).2.all (fun r => ! r.isRunTask)) = true)
    ∧ (∀ (env : Env) (c f : String),
      ((impl_ensure_configuration env c f).2.all
        (fun r => match r with
          | .registerTaskDefinition _ cpu mem _ => cpu == "2048" && mem == "4096"
          | _ => true)) = true)
    ∧ ((impl_ensure_configuration freshEnv "clu" "fam").2.contains
        (Request.createSecurityGroup "Axon autogenerated for ECS."
          "axon-ecs-autogenerated") = true
      ∧ (impl_ensure_configuration freshEnv "clu" "fam").2.contains
        (Request.createSecurityGroup "Axon autogenerated for EC2."
          "axon-ec2-autogenerated") = true
      ∧ (impl_ensure_configuration freshEnv "clu" "fam").2.contains
        (Request.createRole "axon-ecs-autogenerated-task-role") = true
      ∧ (impl_ensure_configuration freshEnv "clu" "fam").2.contains
        (Request.createRole "axon-ec2-role-manual") = true
      ∧ (impl_ensure_configuration freshEnv "clu" "fam").2.contains
        (Request.registerTaskDefinition "fam" "2048" "4096"
          (freshEnv.newRoleArn "axon-ecs-autogenerated-task-role")) = true) := by
  refine ⟨?_, ?_, by decide, by decide, by decide, by decide, by decide⟩
  · intro env c f
    exact impl_ensure_configuration_all env c f _ (fun n => rfl)
      (fun a b => rfl) (fun i l => rfl) (fun i l => rfl) (fun i l => rfl)
      (fun i l => rfl) (fun n => rfl) (fun n a => rfl) (fun n => rfl)
      (fun fam ra => rfl)
  · intro env c f
    exact impl_ensure_configuration_all env c f _ (fun n => rfl)
      (fun a b => rfl) (fun i l => rfl) (fun i l => rfl) (fun i l => rfl)
      (fun i l => rfl) (fun n => rfl) (fun n a => rfl) (fun n => rfl)
      (fun fam ra => by simp)

/-- C4: on any environment on which the pipeline reaches the run-task
request (unambiguous security groups and roles, a successful IP lookup,
and a non-empty subnet listing), the value of `impl_start_task` is decided
by the run-task response alone: zero tasks raise the start-failure
RuntimeError, exactly one task returns its ARN, and two or more raise the
multiple-tasks RuntimeError. -/
theorem start_task_response_cases (env : Env) (c f ip : String)
    (rev : Option Nat)
    (hip : env.publicIp = .ok ip)
    (hsgEcs : ((env.securityGroups.filter
      (fun it => it.groupName == "axon-ecs-autogenerated")).length ≤ 1))
    (hsgEc2 : ((env.securityGroups.filter
      (fun it => it.groupName == "axon-ec2-autogenerated")).length ≤ 1))
    (hroleTask : ((env.roles.filter
      (fun it => it.roleName == "axon-ecs-autogenerated-task-role")).length ≤ 1))
    (hroleEc2 : ((env.roles.filter
      (fun it => it.roleName == "axon-ec2-role-manual")).length ≤ 1))
    (hsub : env.subnets ≠ []) :
    (impl_start_task env c f rev).1 =
      match env.runTaskTasks with
      | [] => .error .failedToStartTask
      | [t] => .ok t
      | _ => .error .startedMoreThanOneTask := by
  have h0 := impl_ensure_configuration_ok env c f ip hip hsgEcs hsgEc2
    hroleTask hroleEc2
  obtain ⟨i1, h1⟩ := ensure_ecs_security_group_ok env ip hip hsgEcs
  cases h2 : env.subnets with
  | nil => exact absurd h2 hsub
  | cons s l =>
    have hsel : select_subnet env = (.ok s, []) := by
      unfold select_subnet
      rw [h2]
    unfold impl_start_task
    dsimp only
    simp only [h0, h1, hsel]
    cases env.runTaskTasks with
    | nil => rfl
    | cons t ts =>
      cases ts with
      | nil => rfl
      | cons b bs => rfl

/-- An environment whose run-task response holds no task. -/
def zeroTasksEnv : Env := { freshEnv with runTaskTasks := [] }

/-- An environment whose run-task response holds two tasks. -/
def twoTasksEnv : Env :=
  { freshEnv with runTaskTasks :=
      ["arn:aws:ecs:us-east-1:1:task/one", "arn:aws:ecs:us-east-1:1:task/two"] }

/-- C4, witness: the three response shapes at concrete environments. -/
theorem start_task_response_cases_witness :
    (impl_start_task zeroTasksEnv "clu" "fam" none).1
        = .error .failedToStartTask
    ∧ (impl_start_task freshEnv "clu" "fam" none).1
        = .ok "arn:aws:ecs:us-east-1:1:task/one"
    ∧ (impl_start_task twoTasksEnv "clu" "fam" none).1
        = .error .startedMoreThanOneTask := by
  refine ⟨?_, ?_, ?_⟩
  · exact start_task_response_cases zeroTasksEnv "clu" "fam" "203.0.113.7" none
      rfl (by decide) (by decide) (by decide) (by decide) (by decide)
  · exact start_task_response_cases freshEnv "clu" "fam" "203.0.113.7" none
      rfl (by decide) (by decide) (by decide) (by decide) (by decide)
  · exact start_task_response_cases twoTasksEnv "clu" "fam" "203.0.113.7" none
      rfl (by decide) (by decide) (by decide) (by decide) (by decide)

/-- C10: subnet selection is partial.  When the filterless subnet listing
is empty, `impl_start_task` fails with an uncaught error and its request
trace holds no run-task request (the IndexError of `select_subnet` fires
before `run_task`); when the listing is non-empty, every run-task request
in the trace carries exactly the first subnet's identifier in its network
configuration. -/
theorem start_task_subnet_selection (env : Env) (c f : String)
    (rev : Option Nat) :
    (env.subnets = [] →
      (∃ e, (impl_start_task env c f rev).1 = .error e)
      ∧ ((impl_start_task env c f rev).2.all (fun r => ! r.isRunTask)) = true)
    ∧ (∀ s l, env.subnets = s :: l →
      ((impl_start_task env c f rev).2.all
        (fun r => match r with
          | .runTask _ _ subs _ => subs == [s]
          | _ => true)) = true) := by
  constructor
  · intro hsub
    have hq0 := impl_ensure_configuration_all env c f (fun r => ! r.isRunTask)
      (fun n => rfl) (fun a b => rfl) (fun i l => rfl) (fun i l => rfl)
      (fun i l => rfl) (fun i l => rfl) (fun n => rfl) (fun n a => rfl)
      (fun n => rfl) (fun fam ra => rfl)
    have hq1 := ensure_ecs_security_group_all env (fun r => ! r.isRunTask)
      (fun i l => rfl) (fun i l => rfl) (fun i l => rfl) (fun i l => rfl)
      (fun a b => rfl)
    have hsel : select_subnet env = (.error .indexError, []) := by
      unfold select_subnet
      rw [hsub]
    unfold impl_start_task
    dsimp only
    cases h0 : (impl_ensure_configuration env c f).1 with
    | error e =>
      exact ⟨⟨e, rfl⟩, hq0⟩
    | ok u =>
      cases h1 : (ensure_ecs_security_group env).1 with
      | error e =>
        refine ⟨⟨e, rfl⟩, ?_⟩
        simp [List.all_append, hq0, hq1]
      | ok sg_id =>
        simp only [hsel]
        refine ⟨⟨.indexError, rfl⟩, ?_⟩
        simp [List.all_append, hq0, hq1]
  · intro s l hsub
    have hq0 := impl_ensure_configuration_all env c f
      (fun r => match r with
        | .runTask _ _ subs _ => subs == [s]
        | _ => true)
      (fun n => rfl) (fun a b => rfl) (fun i l => rfl) (fun i l => rfl)
      (fun i l => rfl) (fun i l => rfl) (fun n => rfl) (fun n a => rfl)
      (fun n => rfl) (fun fam ra => rfl)
    have hq1 := ensure_ecs_security_group_all env
      (fun r => match r with
        | .runTask _ _ subs _ => subs == [s]
        | _ => true)
      (fun i l => rfl) (fun i l => rfl) (fun i l => rfl) (fun i l => rfl)
      (fun a b => rfl)
    have hsel : select_subnet env = (.ok s, []) := by
      unfold select_subnet
      rw [hsub]
    unfold impl_start_task
    dsimp only
    cases h0 : (impl_ensure_configuration env c f).1 with
    | error e => exact hq0
    | ok u =>
      cases h1 : (ensure_ecs_security_group env).1 with
      | error e => simp [List.all_append, hq0, hq1]
      | ok sg_id =>
        simp only [hsel]
        cases env.runTaskTasks with
        | nil => simp [List.all_append, hq0, hq1]
        | cons t ts =>
          cases ts with
          | nil => simp [List.all_append, hq0, hq1]
          | cons b bs => simp [List.all_append, hq0, hq1]

/-- An environment whose subnet listing is empty. -/
def noSubnetEnv : Env := { freshEnv with subnets := [] }

/-- C10, witness: with no subnet the call fails without a run-task
request; with the one-subnet fresh environment every run-task request
carries that subnet. -/
theorem start_task_subnet_selection_witness :
    ((∃ e, (impl_start_task noSubnetEnv "clu" "fam" none).1 = .error e)
      ∧ ((impl_start_task noSubnetEnv "clu" "fam" none).2.all
          (fun r => ! r.isRunTask)) = true)
    ∧ ((impl_start_task freshEnv "clu" "fam" none).2.all
        (fun r => match r with
          | .runTask _ _ subs _ => subs == ["subnet-0a"]
          | _ => true)) = true :=
  ⟨(start_task_subnet_selection noSubnetEnv "clu" "fam" none).1 rfl,
   (start_task_subnet_selection freshEnv "clu" "fam" none).2 "subnet-0a" [] rfl⟩

/-- C6: the upload and download operations derive the remote key from the
fixed prefix plus the base name of the local path alone.  For any two
local paths with the same base name, uploading under one and downloading
under the other transfers the very bytes uploaded (so upload-then-download
of one file name round-trips), and the dataset download under either path
reads the same remote object. -/
theorem model_file_roundtrip (fs : String → String) (s3 : S3State)
    (p1 p2 : String) (h : basename p1 = basename p2) :
    impl_download_model_file (impl_upload_model_file fs s3 p1) p2 = .ok (fs p1)
    ∧ impl_download_dataset s3 p1 = impl_download_dataset s3 p2 := by
  constructor
  · unfold impl_download_model_file impl_upload_model_file upload_file
      download_file
    dsimp only
    rw [← h]
    simp
  · unfold impl_download_dataset
    dsimp only
    rw [h]

/-- C6, witness: two paths with base name `m.tar` collide on the model
key, and the uploaded bytes come back. -/
theorem model_file_roundtrip_witness :
    basename "dir1/m.tar" = basename "dir2/m.tar"
    ∧ impl_download_model_file
        (impl_upload_model_file (fun _ => "modelbytes") ⟨[]⟩ "dir1/m.tar")
        "dir2/m.tar"
      = .ok "modelbytes" :=
  ⟨by decide,
   (model_file_roundtrip (fun _ => "modelbytes") ⟨[]⟩ "dir1/m.tar" "dir2/m.tar"
     (by decide)).1⟩

/-- C7: `impl_get_task_ip` fails with an exception when the described
task has no `ElasticNetworkInterface` attachment, and when the task's
(only) network interface has no association or an association without a
public IP; it returns a value only when the attachment chain ends in an
association carrying a public IP, and then it returns exactly that IP. -/
theorem get_task_ip_cases (task : TaskDescription)
    (rest : List TaskDescription)
    (nics : String → List NetworkInterface) :
    (task.attachments.find? (fun x => x.type == "ElasticNetworkInterface") = none →
      impl_get_task_ip (task :: rest) nics = .error .stopIteration)
    ∧ (∀ att d nic l,
        task.attachments.find? (fun x => x.type == "ElasticNetworkInterface")
          = some att →
        att.details.find? (fun x => x.name == "networkInterfaceId") = some d →
        nics d.value = nic :: l →
        (nic.Association = none →
          impl_get_task_ip (task :: rest) nics = .error .keyError)
        ∧ (∀ a, nic.Association = some a → a.PublicIp = none →
          impl_get_task_ip (task :: rest) nics = .error .keyError)
        ∧ (∀ a ipv, nic.Association = some a → a.PublicIp = some ipv →
          impl_get_task_ip (task :: rest) nics = .ok ipv))
    ∧ (∀ ipres, impl_get_task_ip (task :: rest) nics = .ok ipres →
      ∃ att d nic l a,
        task.attachments.find? (fun x => x.type == "ElasticNetworkInterface")
          = some att
        ∧ att.details.find? (fun x => x.name == "networkInterfaceId") = some d
        ∧ nics d.value = nic :: l
        ∧ nic.Association = some a
        ∧ a.PublicIp = some ipres) := by
  refine ⟨?_, ?_, ?_⟩
  · intro h
    unfold impl_get_task_ip
    simp only [h]
  · intro att d nic l hatt hd hnic
    refine ⟨?_, ?_, ?_⟩
    · intro hassoc
      unfold impl_get_task_ip
      simp only [hatt, hd, hnic, hassoc]
    · intro a hassoc hicp
      unfold impl_get_task_ip
      simp only [hatt, hd, hnic, hassoc, hicp]
    · intro a ipv hassoc hicp
      unfold impl_get_task_ip
      simp only [hatt, hd, hnic, hassoc, hicp]
  · intro ipres h
    unfold impl_get_task_ip at h
    dsimp only at h
    cases hatt : task.attachments.find?
        (fun x => x.type == "ElasticNetworkInterface") with
    | none =>
      simp only [hatt] at h
      exact Except.noConfusion h
    | some att =>
      simp only [hatt] at h
      cases hd : att.details.find? (fun x => x.name == "networkInterfaceId") with
      | none =>
        simp only [hd] at h
        exact Except.noConfusion h
      | some d =>
        simp only [hd] at h
        cases hnic : nics d.value with
        | nil =>
          simp only [hnic] at h
          exact Except.noConfusion h
        | cons nic l =>
          simp only [hnic] at h
          cases hassoc : nic.Association with
          | none =>
            simp only [hassoc] at h
            exact Except.noConfusion h
          | some a =>
            simp only [hassoc] at h
            cases hicp : a.PublicIp with
            | none =>
              simp only [hicp] at h
              exact Except.noConfusion h
            | some ipv =>
              simp only [hicp] at h
              have hv : ipv = ipres := by simpa using h
              exact ⟨att, d, nic, l, a, rfl, hd, hnic, hassoc,
                by rw [hicp, hv]⟩

/-- C7, witness: a task with no network-interface attachment raises, an
interface without a public IP raises, and an interface with a public IP
returns it. -/
theorem get_task_ip_cases_witness :
    impl_get_task_ip [{ attachments := [] }]
        (fun _ => []) = .error .stopIteration
    ∧ impl_get_task_ip
        [{ attachments :=
            [{ type := "ElasticNetworkInterface"
               details := [{ name := "networkInterfaceId", value := "eni-1" }] }] }]
        (fun _ => [{ Association := some { PublicIp := none } }])
      = .error .keyError
    ∧ impl_get_task_ip
        [{ attachments :=
            [{ type := "ElasticNetworkInterface"
               details := [{ name := "networkInterfaceId", value := "eni-1" }] }] }]
        (fun _ => [{ Association := some { PublicIp := some "54.0.0.9" } }])
      = .ok "54.0.0.9" := by
  refine ⟨?_, ?_, ?_⟩
  · exact (get_task_ip_cases { attachments := [] } [] (fun _ => [])).1 (by decide)
  · exact (((get_task_ip_cases
      { attachments :=
          [{ type := "ElasticNetworkInterface"
             details := [{ name := "networkInterfaceId", value := "eni-1" }] }] }
      []
      (fun _ => [{ Association := some { PublicIp := none } }])).2.1
      { type := "ElasticNetworkInterface"
        details := [{ name := "networkInterfaceId", value := "eni-1" }] }
      { name := "networkInterfaceId", value := "eni-1" }
      { Association := some { PublicIp := none } } []
      (by decide) (by decide) rfl).2.1
      { PublicIp := none } rfl rfl)
  · exact (((get_task_ip_cases
      { attachments :=
          [{ type := "ElasticNetworkInterface"
             details := [{ name := "networkInterfaceId", value := "eni-1" }] }] }
      []
      (fun _ => [{ Association := some { PublicIp := some "54.0.0.9" } }])).2.1
      { type := "ElasticNetworkInterface"
        details := [{ name := "networkInterfaceId", value := "eni-1" }] }
      { name := "networkInterfaceId", value := "eni-1" }
      { Association := some { PublicIp := some "54.0.0.9" } } []
      (by decide) (by decide) rfl).2.2
      { PublicIp := some "54.0.0.9" } "54.0.0.9" rfl rfl)

end Axon
